import Mathlib

/-!
Shallow embedding of the workflow graph editor in
`frontend/app/tools/workflow/page.tsx`: the connection rule table,
the connection validator, the connect handler, node deletion, the
breadth-first auto-arrange layout, and workflow save/load
serialization.  Strings that are absent in the source (optional
TypeScript fields coalesced with `|| ''`) are modelled as the empty
string; optional handle fields are modelled as `Option String`.
-/

namespace Workflow

/-- Canvas coordinates.  The source uses JS numbers; every coordinate
the claims touch is produced by integer arithmetic, so `Int` is exact. -/
structure Position where
  x : Int
  y : Int
deriving Repr, DecidableEq

/-- The `data` payload of a React Flow node (`NodeData` in the source).
`label`, `description`, `nodeType` are optional strings in TS; the code
reads them with `|| ''` fallbacks, so absence is the empty string here.
`params` is a string-keyed record passed through opaquely. -/
structure NodeData where
  label : String
  description : String
  category : String
  nodeType : String
  params : List (String × String)
deriving Repr, DecidableEq

/-- A React Flow node: `id`, renderer `type` (always `"workflowNode"` for
nodes the editor creates), `position`, and `data`. -/
structure FlowNode where
  id : String
  type : String
  position : Position
  data : NodeData
deriving Repr, DecidableEq

/-- A React Flow edge; `sourceHandle`/`targetHandle` are optional. -/
structure FlowEdge where
  id : String
  source : String
  target : String
  sourceHandle : Option String
  targetHandle : Option String
deriving Repr, DecidableEq

/-- `ConnectionRule` from the source. -/
structure ConnectionRule where
  canHaveInput : Bool
  canHaveOutput : Bool
  maxInputs : Int
  maxOutputs : Int
deriving Repr, DecidableEq

/-- The `connectionRules` record, keyed by node type; `none` models a
type with no entry in the table. -/
def connectionRules (t : String) : Option ConnectionRule :=
  if t = "input_file" then some ⟨false, true, 0, -1⟩
  else if t = "input_folder" then some ⟨false, true, 0, -1⟩
  else if t = "pdf_merge" then some ⟨true, true, -1, -1⟩
  else if t = "pdf_split" then some ⟨true, true, 1, -1⟩
  else if t = "pdf_compress" then some ⟨true, true, 1, -1⟩
  else if t = "pdf_watermark" then some ⟨true, true, 1, -1⟩
  else if t = "pdf_encrypt" then some ⟨true, true, 1, -1⟩
  else if t = "ai_compare" then some ⟨true, true, 2, -1⟩
  else if t = "ai_pii_detect" then some ⟨true, true, 1, -1⟩
  else if t = "ai_extract_table" then some ⟨true, true, 1, -1⟩
  else if t = "ai_smart_rename" then some ⟨true, true, 1, -1⟩
  else if t = "ai_summarize" then some ⟨true, true, 1, -1⟩
  else if t = "ai_translate" then some ⟨true, true, 1, -1⟩
  else if t = "convert_to_image" then some ⟨true, true, 1, -1⟩
  else if t = "output_save" then some ⟨true, false, -1, 0⟩
  else none

/-- Result type of `validateConnection`: `{ valid: boolean; error?: string }`. -/
structure ValidationResult where
  valid : Bool
  error : Option String
deriving Repr, DecidableEq

/-- The capacity rejection message of `validateConnection` (the
`maxInputs` branch), including the special-cased `ai_compare` wording. -/
def capacityMessage (targetType targetLabel : String) (currentInputCount : Nat)
    (maxInputs : Int) : String :=
  if targetType = "ai_compare" then
    "「AI 合約比對」已連接 " ++ toString currentInputCount ++ " 個輸入（最多 2 個）"
  else
    "「" ++ targetLabel ++ "」已達最大輸入數量（" ++ toString maxInputs ++ "）"

/-- `validateConnection` from the source, check for check in the source's
order: node lookup, source `canHaveOutput`, target `canHaveInput`, target
`maxInputs` capacity, self-connection, duplicate edge. -/
def validateConnection (nodes : List FlowNode) (edges : List FlowEdge)
    (source target : String) : ValidationResult :=
  match nodes.find? (fun n => n.id == source), nodes.find? (fun n => n.id == target) with
  | some sourceNode, some targetNode =>
    let sourceType := sourceNode.data.nodeType
    let targetType := targetNode.data.nodeType
    let sourceRule := connectionRules sourceType
    let targetRule := connectionRules targetType
    let tailChecks : ValidationResult :=
      if source == target then
        ⟨false, some "不能連接到自己"⟩
      else if (edges.find? (fun e => e.source == source && e.target == target)).isSome then
        ⟨false, some "已經存在相同的連接"⟩
      else
        ⟨true, none⟩
    if sourceRule.any (fun r => !r.canHaveOutput) then
      ⟨false, some ("「" ++ sourceNode.data.label ++ "」不能作為輸出來源")⟩
    else if targetRule.any (fun r => !r.canHaveInput) then
      ⟨false, some ("「" ++ targetNode.data.label ++ "」不能接收輸入")⟩
    else
      match targetRule with
      | some r =>
        if 0 < r.maxInputs then
          let currentInputCount := (edges.filter (fun e => e.target == target)).length
          if r.maxInputs ≤ (currentInputCount : Int) then
            ⟨false, some (capacityMessage targetType targetNode.data.label
              currentInputCount r.maxInputs)⟩
          else tailChecks
        else tailChecks
      | none => tailChecks
  | _, _ => ⟨false, some "找不到節點"⟩

/-- JS truthiness for an optional string: `undefined`, `null` and `""`
are all falsy. -/
def jsFalsy : Option String → Bool
  | none => true
  | some s => s == ""

/-- `a || d` for an optional string. -/
def jsOrOpt (a : Option String) (d : String) : String :=
  match a with
  | none => d
  | some s => if s == "" then d else s

/-- `a || d` for a string field whose absence is modelled as `""`. -/
def jsOr (a d : String) : String :=
  if a == "" then d else a

/-- `getEdgeId` of `@xyflow/react`:
`xy-edge__{source}{sourceHandle or empty}-{target}{targetHandle or empty}`. -/
def getEdgeId (source target : String) (sourceHandle targetHandle : Option String) :
    String :=
  "xy-edge__" ++ source ++ jsOrOpt sourceHandle "" ++ "-" ++ target ++
    jsOrOpt targetHandle ""

/-- `connectionExists` of `@xyflow/react`: an edge with the same source,
target and (nullish-equal) handles is already present. -/
def connectionExists (e : FlowEdge) (edges : List FlowEdge) : Bool :=
  edges.any (fun el =>
    el.source == e.source && el.target == e.target &&
    (el.sourceHandle == e.sourceHandle || (jsFalsy el.sourceHandle && jsFalsy e.sourceHandle)) &&
    (el.targetHandle == e.targetHandle || (jsFalsy el.targetHandle && jsFalsy e.targetHandle)))

/-- `addEdge` of `@xyflow/react`, applied to the connection params the
editor passes (no `id`, so one is generated): bail out on a falsy
endpoint, skip when the connection already exists, else append. -/
def addEdgeRF (source target : String) (sourceHandle targetHandle : Option String)
    (edges : List FlowEdge) : List FlowEdge :=
  if source == "" || target == "" then edges
  else
    let edge : FlowEdge :=
      ⟨getEdgeId source target sourceHandle targetHandle, source, target,
        sourceHandle, targetHandle⟩
    if connectionExists edge edges then edges else edges ++ [edge]

/-- The editor state the claims touch: the node list, the edge list, the
selected node and the transient connection-error message. -/
structure WorkflowState where
  nodes : List FlowNode
  edges : List FlowEdge
  selectedNode : Option FlowNode
  connectionError : Option String
deriving Repr, DecidableEq

/-- `onConnect` from the source: bail out on a falsy endpoint, validate,
set the error message on rejection, append via `addEdge` on acceptance. -/
def onConnect (st : WorkflowState) (source target : String)
    (sourceHandle targetHandle : Option String) : WorkflowState :=
  if source == "" || target == "" then st
  else
    let validation := validateConnection st.nodes st.edges source target
    if validation.valid then
      { st with edges := addEdgeRF source target sourceHandle targetHandle st.edges }
    else
      { st with connectionError := some (jsOrOpt validation.error "無法建立連接") }

/-- `deleteSelectedNode` from the source: drop the selected node, drop
every edge incident to it, clear the selection. -/
def deleteSelectedNode (st : WorkflowState) : WorkflowState :=
  match st.selectedNode with
  | some sel =>
    { st with
      nodes := st.nodes.filter (fun n => !(n.id == sel.id)),
      edges := st.edges.filter (fun e => !(e.source == sel.id) && !(e.target == sel.id)),
      selectedNode := none }
  | none => st

/-- Layout constants of `autoArrangeNodes`. -/
def HORIZONTAL_GAP : Int := 250

def VERTICAL_GAP : Int := 120

def START_X : Int := 100

def START_Y : Int := 100

/-- One step of the BFS `while` loop of `autoArrangeNodes`: the next
level is the list of not-yet-visited targets of edges leaving the
current level, deduplicated, in traversal order. -/
def bfsNextLevel (edges : List FlowEdge) (visited currentLevel : List String) :
    List String :=
  currentLevel.foldl (fun acc nodeId =>
    (edges.filter (fun e => e.source == nodeId)).foldl (fun acc2 e =>
      if !(visited.contains e.target) && !(acc2.contains e.target) then
        acc2 ++ [e.target]
      else acc2) acc) []

/-- The BFS `while` loop of `autoArrangeNodes`, with fuel.  Each
iteration with a non-empty level marks at least one fresh id visited,
all drawn from the node ids and edge targets, so
`nodes.length + edges.length + 1` fuel always runs the loop to its
natural end. -/
def bfsLoop (edges : List FlowEdge) : Nat → List String → List String →
    List (List String)
  | 0, _, _ => []
  | fuel + 1, visited, currentLevel =>
    if currentLevel.isEmpty then []
    else
      let visited2 := visited ++ currentLevel
      currentLevel :: bfsLoop edges fuel visited2 (bfsNextLevel edges visited2 currentLevel)

/-- `String.startsWith`, written over the character list so that the
kernel can evaluate it (`String.startsWith` itself is an extern
byte-level loop); the semantics is identical. -/
def strStartsWith (s pre : String) : Bool :=
  s.data.take pre.length == pre.data

/-- The level assignment computed by `autoArrangeNodes`: BFS from the
root set (nodes whose type starts with `input_` or with no incoming
edge), then every unvisited node appended as its own singleton level. -/
def computeLevels (nodes : List FlowNode) (edges : List FlowEdge) :
    List (List String) :=
  let inputNodeIds :=
    ((nodes.filter (fun n =>
        strStartsWith n.data.nodeType "input_" ||
        !(edges.any (fun e => e.target == n.id)))).map (fun n => n.id)).eraseDups
  let bfs := bfsLoop edges (nodes.length + edges.length + 1) [] inputNodeIds
  (nodes.foldl (fun (p : List (List String) × List String) n =>
      if p.2.contains n.id then p else (p.1 ++ [[n.id]], p.2 ++ [n.id]))
    (bfs, bfs.flatten)).1

/-- The coordinate assignment of `autoArrangeNodes`, verbatim: for the
level at `levelIndex`, `levelY = START_Y + (len-1)*VERTICAL_GAP/2` and a
node at `nodeIndex` gets
`(START_X + levelIndex*HORIZONTAL_GAP, levelY - (len-1)*VERTICAL_GAP/2 + nodeIndex*VERTICAL_GAP)`. -/
def arrangePositions (levels : List (List String)) : List (String × Position) :=
  (levels.enum.map (fun li =>
    let level := li.2
    let levelY : Int := START_Y + ((level.length : Int) - 1) * VERTICAL_GAP / 2
    level.enum.map (fun ni =>
      (ni.2, (⟨START_X + (li.1 : Int) * HORIZONTAL_GAP,
              levelY - ((level.length : Int) - 1) * VERTICAL_GAP / 2 +
                (ni.1 : Int) * VERTICAL_GAP⟩ : Position))))).flatten

/-- The final `setNodes` update of `autoArrangeNodes`:
`newPositions[n.id] || n.position`. -/
def applyPositions (newPositions : List (String × Position)) (n : FlowNode) :
    FlowNode :=
  match newPositions.find? (fun p => p.1 == n.id) with
  | some p => { n with position := p.2 }
  | none => n

/-- `autoArrangeNodes` from the source: no-op on an empty canvas, else
compute levels, compute new positions, and update each node's position
(nodes absent from the position map keep theirs). -/
def autoArrangeNodes (nodes : List FlowNode) (edges : List FlowEdge) :
    List FlowNode :=
  if nodes.isEmpty then nodes
  else nodes.map (applyPositions (arrangePositions (computeLevels nodes edges)))

/-- The source-rule gate of `validateConnection`:
`!(sourceRule && !sourceRule.canHaveOutput)`. -/
def ruleAllowsOutput (rule : Option ConnectionRule) : Bool :=
  !(rule.any (fun r => !r.canHaveOutput))

/-- The target-rule gate of `validateConnection`:
`!(targetRule && !targetRule.canHaveInput)`. -/
def ruleAllowsInput (rule : Option ConnectionRule) : Bool :=
  !(rule.any (fun r => !r.canHaveInput))

/-- The capacity gate of `validateConnection`: the target's rule exists,
has `maxInputs > 0`, and the current incoming-edge count has reached it. -/
def capacityBlocked (rule : Option ConnectionRule) (edges : List FlowEdge)
    (target : String) : Bool :=
  rule.any (fun r =>
    decide (0 < r.maxInputs) &&
    decide (r.maxInputs ≤ (((edges.filter (fun e => e.target == target)).length : Int))))

/-- `maxInputs` of an optional rule, `0` when absent (only read under
`capacityBlocked`, which guarantees the rule is present). -/
def ruleMaxInputs (rule : Option ConnectionRule) : Int :=
  match rule with
  | some r => r.maxInputs
  | none => 0

/-- The check chain of `validateConnection` once both endpoint nodes
have been resolved, written with the named gates; used to reason about
the validator's check order. -/
def validateChain (sn tn : FlowNode) (edges : List FlowEdge)
    (source target : String) : ValidationResult :=
  if !(ruleAllowsOutput (connectionRules sn.data.nodeType)) then
    ⟨false, some ("「" ++ sn.data.label ++ "」不能作為輸出來源")⟩
  else if !(ruleAllowsInput (connectionRules tn.data.nodeType)) then
    ⟨false, some ("「" ++ tn.data.label ++ "」不能接收輸入")⟩
  else if capacityBlocked (connectionRules tn.data.nodeType) edges target then
    ⟨false, some (capacityMessage tn.data.nodeType tn.data.label
      ((edges.filter (fun e => e.target == target)).length)
      (ruleMaxInputs (connectionRules tn.data.nodeType)))⟩
  else if source == target then
    ⟨false, some "不能連接到自己"⟩
  else if (edges.find? (fun e => e.source == source && e.target == target)).isSome then
    ⟨false, some "已經存在相同的連接"⟩
  else
    ⟨true, none⟩

/-- One entry of `nodeTypeDefinitions`: the fields the load path reads
(`type`, `category`, `label`); icons and parameter schemas are
presentation data the claims never touch. -/
structure NodeTypeDefinition where
  type : String
  category : String
  label : String
deriving Repr, DecidableEq

/-- The `nodeTypeDefinitions` catalog from the source. -/
def nodeTypeDefinitions : List NodeTypeDefinition :=
  [⟨"input_file", "input", "檔案輸入"⟩,
   ⟨"input_folder", "input", "資料夾輸入"⟩,
   ⟨"pdf_merge", "pdf", "合併 PDF"⟩,
   ⟨"pdf_split", "pdf", "分割 PDF"⟩,
   ⟨"pdf_compress", "pdf", "壓縮 PDF"⟩,
   ⟨"pdf_watermark", "pdf", "加浮水印"⟩,
   ⟨"pdf_encrypt", "pdf", "加密 PDF"⟩,
   ⟨"ai_compare", "ai", "AI 合約比對"⟩,
   ⟨"ai_pii_detect", "ai", "AI 個資偵測"⟩,
   ⟨"ai_extract_table", "ai", "AI 表格提取"⟩,
   ⟨"ai_smart_rename", "ai", "AI 智能重命名"⟩,
   ⟨"ai_summarize", "ai", "AI 摘要"⟩,
   ⟨"ai_translate", "ai", "AI 翻譯"⟩,
   ⟨"convert_to_image", "convert", "轉為圖片"⟩,
   ⟨"output_save", "output", "儲存檔案"⟩]

/-- One element of the `nodes` array `saveWorkflow` sends:
`{id, type, position, config:{label, description, params}}`. -/
structure SavedNode where
  id : String
  type : String
  position : Position
  configLabel : String
  configDescription : String
  configParams : List (String × String)
deriving Repr, DecidableEq

/-- One element of the `connections` array `saveWorkflow` sends:
`{id, source_node, target_node, source_handle, target_handle}`. -/
structure SavedConnection where
  id : String
  source_node : String
  target_node : String
  source_handle : String
  target_handle : String
deriving Repr, DecidableEq

/-- The workflow payload of `saveWorkflow` (the parts the claims touch:
`name`, `nodes`, `connections`). -/
structure SavedWorkflow where
  name : String
  nodes : List SavedNode
  connections : List SavedConnection
deriving Repr, DecidableEq

/-- The node serialization of `saveWorkflow`: the transmitted `type` is
`data.nodeType || n.type`, `config` carries label, description (`|| ''`)
and params (`|| an empty record`). -/
def serializeNode (n : FlowNode) : SavedNode :=
  { id := n.id,
    type := jsOr n.data.nodeType n.type,
    position := n.position,
    configLabel := n.data.label,
    configDescription := n.data.description,
    configParams := n.data.params }

/-- The edge serialization of `saveWorkflow`: missing handles fall back
to `"output"` / `"input"`. -/
def serializeConnection (e : FlowEdge) : SavedConnection :=
  { id := e.id,
    source_node := e.source,
    target_node := e.target,
    source_handle := jsOrOpt e.sourceHandle "output",
    target_handle := jsOrOpt e.targetHandle "input" }

/-- The payload `saveWorkflow` builds from the editor state. -/
def serializeWorkflow (name : String) (nodes : List FlowNode)
    (edges : List FlowEdge) : SavedWorkflow :=
  { name := name,
    nodes := nodes.map serializeNode,
    connections := edges.map serializeConnection }

/-- The node conversion of `loadWorkflow`: renderer type is always
`"workflowNode"`, the label falls back to the catalog label then the raw
type, the category falls back to the catalog category then `"pdf"`, and
`nodeType` is the stored `type`. -/
def deserializeNode (n : SavedNode) : FlowNode :=
  let nodeDef := nodeTypeDefinitions.find? (fun d => d.type == n.type)
  { id := n.id,
    type := "workflowNode",
    position := n.position,
    data :=
      { label := jsOr n.configLabel
          (jsOr (match nodeDef with | some d => d.label | none => "") n.type),
        description := n.configDescription,
        category := jsOr (match nodeDef with | some d => d.category | none => "") "pdf",
        nodeType := n.type,
        params := n.configParams } }

/-- The connection conversion of `loadWorkflow`: only `id`, `source` and
`target` are taken from the stored record; no handle fields are set. -/
def deserializeConnection (c : SavedConnection) : FlowEdge :=
  { id := c.id,
    source := c.source_node,
    target := c.target_node,
    sourceHandle := none,
    targetHandle := none }

/-- `loadWorkflow`'s effect on the graph: the node and edge lists are
replaced wholesale by the converted stored data. -/
def loadWorkflow (w : SavedWorkflow) : List FlowNode × List FlowEdge :=
  (w.nodes.map deserializeNode, w.connections.map deserializeConnection)


/-- Concrete fixture: an `input_file` node "a" labelled "A". -/
def exInputA : FlowNode :=
  ⟨"a", "workflowNode", ⟨0, 0⟩, ⟨"A", "", "input", "input_file", []⟩⟩

/-- Concrete fixture: a second `input_file` node "b" labelled "B". -/
def exInputB : FlowNode :=
  ⟨"b", "workflowNode", ⟨0, 120⟩, ⟨"B", "", "input", "input_file", []⟩⟩

/-- Concrete fixture: a `pdf_split` node "b" labelled "B" (`maxInputs = 1`). -/
def exSplitB : FlowNode :=
  ⟨"b", "workflowNode", ⟨200, 0⟩, ⟨"B", "", "pdf", "pdf_split", []⟩⟩

/-- Concrete fixture: a `pdf_merge` node "b" labelled "B" (unbounded inputs). -/
def exMergeB : FlowNode :=
  ⟨"b", "workflowNode", ⟨200, 0⟩, ⟨"B", "", "pdf", "pdf_merge", []⟩⟩

/-- Concrete fixture: an `output_save` node "a" labelled "A". -/
def exOutputA : FlowNode :=
  ⟨"a", "workflowNode", ⟨0, 0⟩, ⟨"A", "", "output", "output_save", []⟩⟩

/-- Concrete fixture: a `pdf_merge` node "a" labelled "A". -/
def exMergeA : FlowNode :=
  ⟨"a", "workflowNode", ⟨0, 0⟩, ⟨"A", "", "pdf", "pdf_merge", []⟩⟩

/-- Concrete fixture for the layout claims: an input node and two
`pdf_merge` nodes fed by it. -/
def exArrangeNodes : List FlowNode :=
  [⟨"A", "workflowNode", ⟨17, 33⟩, ⟨"A", "", "input", "input_file", []⟩⟩,
   ⟨"B", "workflowNode", ⟨400, 50⟩, ⟨"B", "", "pdf", "pdf_merge", []⟩⟩,
   ⟨"C", "workflowNode", ⟨90, 270⟩, ⟨"C", "", "pdf", "pdf_merge", []⟩⟩]

/-- Concrete fixture: the edges A→B and A→C. -/
def exArrangeEdges : List FlowEdge :=
  [⟨"e1", "A", "B", none, none⟩, ⟨"e2", "A", "C", none, none⟩]

theorem validateConnection_found {ns : List FlowNode} {es : List FlowEdge}
    {s t : String} {sn tn : FlowNode}
    (hs : ns.find? (fun n => n.id == s) = some sn)
    (ht : ns.find? (fun n => n.id == t) = some tn) :
    validateConnection ns es s t = validateChain sn tn es s t := by
  unfold validateConnection validateChain
  rw [hs, ht]
  cases hr : connectionRules tn.data.nodeType with
  | none =>
    simp [ruleAllowsOutput, ruleAllowsInput, capacityBlocked, hr]
  | some r =>
    simp only [ruleAllowsOutput, ruleAllowsInput, capacityBlocked, ruleMaxInputs, hr,
      Option.any_some, Bool.not_not]
    by_cases hout : (connectionRules sn.data.nodeType).any (fun r => !r.canHaveOutput)
    · simp [hout]
    · simp only [hout, Bool.false_eq_true, ite_false, if_false]
      by_cases hin : r.canHaveInput
      · simp only [hin, Bool.not_true, Bool.false_eq_true, ite_false, if_false]
        by_cases hmax : 0 < r.maxInputs
        · by_cases hcnt : r.maxInputs ≤ ((es.filter (fun e => e.target == t)).length : Int)
          · simp [hmax, hcnt]
          · simp [hmax, hcnt]
        · simp [hmax]
      · simp [hin]

theorem validateConnection_missing {ns : List FlowNode} {es : List FlowEdge}
    {s t : String}
    (h : ns.find? (fun n => n.id == s) = none ∨
         ns.find? (fun n => n.id == t) = none) :
    validateConnection ns es s t = ⟨false, some "找不到節點"⟩ := by
  unfold validateConnection
  cases hs : ns.find? (fun n => n.id == s) with
  | none => cases ht : ns.find? (fun n => n.id == t) <;> rfl
  | some sn =>
    cases ht : ns.find? (fun n => n.id == t) with
    | none => rfl
    | some tn => rcases h with h | h <;> simp [hs, ht] at h

theorem validateConnection_accepted {ns : List FlowNode} {es : List FlowEdge}
    {s t : String}
    (h : validateConnection ns es s t = ⟨true, none⟩) :
    ∃ sn tn,
      ns.find? (fun n => n.id == s) = some sn ∧
      ns.find? (fun n => n.id == t) = some tn ∧
      ruleAllowsOutput (connectionRules sn.data.nodeType) = true ∧
      ruleAllowsInput (connectionRules tn.data.nodeType) = true ∧
      capacityBlocked (connectionRules tn.data.nodeType) es t = false ∧
      (s == t) = false ∧
      es.find? (fun e => e.source == s && e.target == t) = none := by
  cases hs : ns.find? (fun n => n.id == s) with
  | none => rw [validateConnection_missing (Or.inl hs)] at h; exact absurd h (by simp)
  | some sn =>
    cases ht : ns.find? (fun n => n.id == t) with
    | none => rw [validateConnection_missing (Or.inr ht)] at h; exact absurd h (by simp)
    | some tn =>
      rw [validateConnection_found hs ht] at h
      unfold validateChain at h
      refine ⟨sn, tn, rfl, rfl, ?_⟩
      split at h
      · exact absurd h (by simp)
      · split at h
        · exact absurd h (by simp)
        · split at h
          · exact absurd h (by simp)
          · split at h
            · exact absurd h (by simp)
            · split at h
              · exact absurd h (by simp)
              · rename_i h1 h2 h3 h4 h5
                refine ⟨by simpa using h1, by simpa using h2, by simpa using h3,
                  by simpa using h4, by simpa using h5⟩


theorem onConnect_rejected {st : WorkflowState} {s t : String}
    {sourceHandle targetHandle : Option String}
    (hs : (s == "") = false) (ht : (t == "") = false)
    (hrej : (validateConnection st.nodes st.edges s t).valid = false) :
    onConnect st s t sourceHandle targetHandle = { st with connectionError := some (jsOrOpt (validateConnection st.nodes st.edges s t).error "無法建立連接") } := by
  unfold onConnect
  simp [hs, ht, hrej]

theorem onConnect_accepted {st : WorkflowState} {s t : String}
    {sourceHandle targetHandle : Option String}
    (hs : (s == "") = false) (ht : (t == "") = false)
    (hacc : validateConnection st.nodes st.edges s t = ⟨true, none⟩) :
    onConnect st s t sourceHandle targetHandle =
      { st with edges := addEdgeRF s t sourceHandle targetHandle st.edges } := by
  unfold onConnect
  simp [hs, ht, hacc]

theorem addEdgeRF_no_dup {s t : String} {sourceHandle targetHandle : Option String}
    {es : List FlowEdge}
    (hs : (s == "") = false) (ht : (t == "") = false)
    (hdup : es.find? (fun e => e.source == s && e.target == t) = none) :
    addEdgeRF s t sourceHandle targetHandle es =
      es ++ [⟨getEdgeId s t sourceHandle targetHandle, s, t, sourceHandle, targetHandle⟩] := by
  unfold addEdgeRF
  have hex : connectionExists
      ⟨getEdgeId s t sourceHandle targetHandle, s, t, sourceHandle, targetHandle⟩ es = false := by
    unfold connectionExists
    rw [List.any_eq_false]
    intro el hel
    have hne := List.find?_eq_none.mp hdup el hel
    simp only [Bool.and_eq_true, beq_iff_eq] at hne ⊢
    tauto
  simp [hs, ht, hex]

theorem applyPositions_id (P : List (String × Position)) (n : FlowNode) :
    (applyPositions P n).id = n.id := by
  unfold applyPositions
  split <;> rfl

theorem applyPositions_data (P : List (String × Position)) (n : FlowNode) :
    (applyPositions P n).data = n.data := by
  unfold applyPositions
  split <;> rfl

theorem applyPositions_idem (P : List (String × Position)) (n : FlowNode) :
    applyPositions P (applyPositions P n) = applyPositions P n := by
  cases h : P.find? (fun p => p.1 == n.id) with
  | none =>
    have h1 : applyPositions P n = n := by unfold applyPositions; rw [h]
    rw [h1]
    exact h1
  | some p =>
    have h1 : applyPositions P n = { n with position := p.2 } := by
      unfold applyPositions; rw [h]
    rw [h1]
    show applyPositions P { n with position := p.2 } = { n with position := p.2 }
    unfold applyPositions
    have h2 : P.find? (fun q => q.1 == ({ n with position := p.2 } : FlowNode).id) = some p := h
    rw [h2]

theorem computeLevels_map (f : FlowNode → FlowNode) (ns : List FlowNode)
    (es : List FlowEdge)
    (hid : ∀ n, (f n).id = n.id) (hty : ∀ n, (f n).data.nodeType = n.data.nodeType) :
    computeLevels (ns.map f) es = computeLevels ns es := by
  simp only [computeLevels]
  rw [List.filter_map, List.map_map, List.length_map, List.foldl_map]
  have hp : (fun n => strStartsWith n.data.nodeType "input_" ||
        !(es.any (fun e => e.target == n.id))) ∘ f =
      (fun n => strStartsWith n.data.nodeType "input_" ||
        !(es.any (fun e => e.target == n.id))) := by
    funext n
    simp only [Function.comp_apply, hid n, hty n]
  rw [hp]
  have hq : (fun (n : FlowNode) => n.id) ∘ f = (fun (n : FlowNode) => n.id) := by
    funext n
    simp only [Function.comp_apply, hid n]
  rw [hq]
  have hg : (fun (p : List (List String) × List String) n =>
        if p.2.contains (f n).id then p else (p.1 ++ [[(f n).id]], p.2 ++ [(f n).id])) =
      (fun (p : List (List String) × List String) n =>
        if p.2.contains n.id then p else (p.1 ++ [[n.id]], p.2 ++ [n.id])) := by
    funext p n
    rw [hid n]
  rw [hg]

theorem isEmpty_map (f : FlowNode → FlowNode) (ns : List FlowNode) :
    (ns.map f).isEmpty = ns.isEmpty := by
  cases ns <;> rfl

/-- C1 (counterexample): the validator does not put the self-connection
check second.  For the `output_save` node "a" (which exists), the
attempt a→a is rejected with the cannot-be-an-output-source reason, not
the self-connection reason, so the self check does not fire regardless
of the node's type rule. -/
theorem C1_counterexample :
    validateConnection [exOutputA] [] "a" "a" =
      ⟨false, some "「A」不能作為輸出來源"⟩ ∧
    validateConnection [exOutputA] [] "a" "a" ≠
      ⟨false, some "不能連接到自己"⟩ := by
  constructor
  · decide
  · decide

/-- C1 (amended): the validator's checks run in the order (1) both
endpoints resolve, (2) source type allows outgoing, (3) target type
allows incoming, (4) target incoming capacity, (5) source equals target,
(6) duplicate edge; a self-connection on an existing node is rejected
with the self-connection reason exactly when the node's rule checks
(2)–(4) all pass. -/
theorem C1_amended (ns : List FlowNode) (es : List FlowEdge) (s : String)
    (sn : FlowNode)
    (hfind : ns.find? (fun n => n.id == s) = some sn)
    (hout : ruleAllowsOutput (connectionRules sn.data.nodeType) = true)
    (hin : ruleAllowsInput (connectionRules sn.data.nodeType) = true)
    (hcap : capacityBlocked (connectionRules sn.data.nodeType) es s = false) :
    validateConnection ns es s s = ⟨false, some "不能連接到自己"⟩ := by
  rw [validateConnection_found hfind hfind]
  unfold validateChain
  simp [hout, hin, hcap]

theorem C1_amended_witness :
    validateConnection [exMergeA] [] "a" "a" = ⟨false, some "不能連接到自己"⟩ :=
  C1_amended [exMergeA] [] "a" exMergeA (by decide) (by decide) (by decide) (by decide)

/-- C3 (counterexample): the capacity check fires only for
`maxIncoming > 0`, not for `maxIncoming ≥ 0`.  `input_file` has
`maxInputs = 0`; a connection into an `input_file` node with 0 incoming
edges (count 0 ≥ 0 = maxIncoming) is rejected by the allows-incoming
check with the cannot-receive-input message, not with a message stating
the count and the limit. -/
theorem C3_counterexample :
    connectionRules "input_file" =
      some { canHaveInput := false, canHaveOutput := true, maxInputs := 0, maxOutputs := -1 } ∧
    validateConnection [exInputA, exInputB] [] "a" "b" =
      ⟨false, some "「B」不能接收輸入"⟩ ∧
    "「B」不能接收輸入" ≠ capacityMessage "input_file" "B" 0 0 := by
  refine ⟨by decide, by decide, by decide⟩

/-- C3 (amended): for a target node whose rule has `maxIncoming = n` with
`n > 0` and which already has at least n incoming edges, every
connection attempt targeting it is rejected, whatever the source; and
whenever the source resolves and its rule allows outgoing, the rejection
message is the capacity message built from the current count and the
limit (with the special `ai_compare` wording). -/
theorem C3_amended (ns : List FlowNode) (es : List FlowEdge) (s t : String)
    (tn : FlowNode) (r : ConnectionRule)
    (ht : ns.find? (fun n => n.id == t) = some tn)
    (hr : connectionRules tn.data.nodeType = some r)
    (hin : r.canHaveInput = true)
    (hmax : 0 < r.maxInputs)
    (hcnt : r.maxInputs ≤ ((es.filter (fun e => e.target == t)).length : Int)) :
    (validateConnection ns es s t).valid = false ∧
    (∀ sn, ns.find? (fun n => n.id == s) = some sn →
      ruleAllowsOutput (connectionRules sn.data.nodeType) = true →
      validateConnection ns es s t =
        ⟨false, some (capacityMessage tn.data.nodeType tn.data.label
          ((es.filter (fun e => e.target == t)).length) r.maxInputs)⟩) := by
  have hblock : capacityBlocked (connectionRules tn.data.nodeType) es t = true := by
    simp [capacityBlocked, hr, hmax, hcnt]
  have hin' : ruleAllowsInput (connectionRules tn.data.nodeType) = true := by
    simp [ruleAllowsInput, hr, hin]
  constructor
  · cases hfs : ns.find? (fun n => n.id == s) with
    | none => rw [validateConnection_missing (Or.inl hfs)]
    | some sn =>
      rw [validateConnection_found hfs ht]
      unfold validateChain
      by_cases hout : ruleAllowsOutput (connectionRules sn.data.nodeType) = true
      · simp [hout, hin', hblock]
      · simp [hout]
  · intro sn hfs hout
    rw [validateConnection_found hfs ht]
    unfold validateChain
    simp [hout, hin', hblock]
    simp [ruleMaxInputs, hr]

theorem C3_amended_witness :
    (validateConnection [exInputA, exSplitB] [⟨"e1", "a", "b", none, none⟩]
        "a" "b").valid = false :=
  (C3_amended [exInputA, exSplitB] [⟨"e1", "a", "b", none, none⟩] "a" "b"
    exSplitB ⟨true, true, 1, -1⟩ (by decide) (by decide) (by decide) (by decide)
    (by decide)).1

/-- C5 (counterexample): after an accepted a→b connection into the
`pdf_split` node "b" (`maxInputs = 1`), the immediately repeated attempt
is rejected — but by the incoming-capacity check, whose message is not
the duplicate-connection message, because the capacity check runs before
the duplicate check. -/
theorem C5_counterexample :
    ((onConnect ⟨[exInputA, exSplitB], [], none, none⟩ "a" "b" none none).edges.filter
        (fun e => e.source == "a" && e.target == "b")).length = 1 ∧
    validateConnection
        (onConnect ⟨[exInputA, exSplitB], [], none, none⟩ "a" "b" none none).nodes
        (onConnect ⟨[exInputA, exSplitB], [], none, none⟩ "a" "b" none none).edges
        "a" "b" =
      ⟨false, some "「B」已達最大輸入數量（1）"⟩ ∧
    "「B」已達最大輸入數量（1）" ≠ "已經存在相同的連接" := by
  refine ⟨by decide, by decide, by decide⟩

/-- C5 (amended): after an accepted connect(a,b) the edge set has
exactly one (a,b) edge, and an immediately repeated connect(a,b) is
rejected and leaves exactly one (a,b) edge; the rejection reason is the
duplicate-connection message whenever the target's incoming-capacity
check does not fire on the new edge set (it is the capacity message
otherwise). -/
theorem C5_amended (st : WorkflowState) (a b : String)
    (sourceHandle targetHandle : Option String) (tn : FlowNode)
    (ha : (a == "") = false) (hb : (b == "") = false)
    (htn : st.nodes.find? (fun n => n.id == b) = some tn)
    (hacc : validateConnection st.nodes st.edges a b = ⟨true, none⟩) :
    (((onConnect st a b sourceHandle targetHandle).edges.filter
        (fun e => e.source == a && e.target == b)).length = 1) ∧
    ((validateConnection (onConnect st a b sourceHandle targetHandle).nodes
        (onConnect st a b sourceHandle targetHandle).edges a b).valid = false) ∧
    (((onConnect (onConnect st a b sourceHandle targetHandle) a b sourceHandle
        targetHandle).edges.filter
        (fun e => e.source == a && e.target == b)).length = 1) ∧
    (capacityBlocked (connectionRules tn.data.nodeType)
        (onConnect st a b sourceHandle targetHandle).edges b = false →
      validateConnection (onConnect st a b sourceHandle targetHandle).nodes
          (onConnect st a b sourceHandle targetHandle).edges a b =
        ⟨false, some "已經存在相同的連接"⟩) := by
  obtain ⟨sn, tn', hfs, hft, hout, hin, hcap, hne, hdup⟩ :=
    validateConnection_accepted hacc
  have htn' : tn' = tn := by
    rw [htn] at hft
    exact (Option.some.inj hft).symm
  rw [htn'] at hin hcap hft
  have hconn := @onConnect_accepted st a b sourceHandle targetHandle ha hb hacc
  have hadd := @addEdgeRF_no_dup a b sourceHandle targetHandle st.edges ha hb hdup
  have hedges : (onConnect st a b sourceHandle targetHandle).edges =
      st.edges ++ [⟨getEdgeId a b sourceHandle targetHandle, a, b, sourceHandle,
        targetHandle⟩] := by
    rw [hconn, hadd]
  have hnodes : (onConnect st a b sourceHandle targetHandle).nodes = st.nodes := by
    rw [hconn]
  have hfilter_nil : st.edges.filter (fun e => e.source == a && e.target == b) = [] := by
    rw [List.filter_eq_nil_iff]
    intro e he
    exact List.find?_eq_none.mp hdup e he
  have hone : ((onConnect st a b sourceHandle targetHandle).edges.filter
      (fun e => e.source == a && e.target == b)).length = 1 := by
    rw [hedges, List.filter_append, hfilter_nil]
    simp
  have hne' : ¬(a = b) := by simpa using hne
  have hex2 : ∃ x ∈ (onConnect st a b sourceHandle targetHandle).edges,
      x.source = a ∧ x.target = b := by
    refine ⟨⟨getEdgeId a b sourceHandle targetHandle, a, b, sourceHandle,
      targetHandle⟩, ?_, rfl, rfl⟩
    rw [hedges]
    simp
  have hsecond : capacityBlocked (connectionRules tn.data.nodeType)
        (onConnect st a b sourceHandle targetHandle).edges b = false →
      validateConnection (onConnect st a b sourceHandle targetHandle).nodes
          (onConnect st a b sourceHandle targetHandle).edges a b =
        ⟨false, some "已經存在相同的連接"⟩ := by
    intro hc
    rw [hnodes, validateConnection_found hfs hft]
    unfold validateChain
    simp [hout, hin, hc, hne', hex2]
  have hrej : (validateConnection (onConnect st a b sourceHandle targetHandle).nodes
      (onConnect st a b sourceHandle targetHandle).edges a b).valid = false := by
    by_cases hc : capacityBlocked (connectionRules tn.data.nodeType)
        (onConnect st a b sourceHandle targetHandle).edges b = true
    · rw [hnodes, validateConnection_found hfs hft]
      unfold validateChain
      simp [hout, hin, hc]
    · rw [hsecond (by simpa using hc)]
  refine ⟨hone, hrej, ?_, hsecond⟩
  rw [onConnect_rejected ha hb hrej]
  exact hone

theorem C5_amended_witness :
    (((onConnect ⟨[exInputA, exMergeB], [], none, none⟩ "a" "b" none none).edges.filter
        (fun e => e.source == "a" && e.target == "b")).length = 1) ∧
    ((validateConnection
        (onConnect ⟨[exInputA, exMergeB], [], none, none⟩ "a" "b" none none).nodes
        (onConnect ⟨[exInputA, exMergeB], [], none, none⟩ "a" "b" none none).edges
        "a" "b").valid = false) :=
  ⟨(C5_amended ⟨[exInputA, exMergeB], [], none, none⟩ "a" "b" none none exMergeB
      (by decide) (by decide) (by decide) (by decide)).1,
   (C5_amended ⟨[exInputA, exMergeB], [], none, none⟩ "a" "b" none none exMergeB
      (by decide) (by decide) (by decide) (by decide)).2.1⟩

/-- C6: whenever the validator rejects, `onConnect` mutates no graph
state — the node list, edge list and selection are unchanged — and only
the transient connection-error message is set (to the rejection reason,
shown by a toast that auto-dismisses). -/
theorem C6_reject_no_mutation (st : WorkflowState) (s t : String)
    (sourceHandle targetHandle : Option String)
    (hs : s ≠ "") (ht : t ≠ "")
    (hrej : (validateConnection st.nodes st.edges s t).valid = false) :
    (onConnect st s t sourceHandle targetHandle).nodes = st.nodes ∧
    (onConnect st s t sourceHandle targetHandle).edges = st.edges ∧
    (onConnect st s t sourceHandle targetHandle).selectedNode = st.selectedNode ∧
    (onConnect st s t sourceHandle targetHandle).connectionError =
      some (jsOrOpt (validateConnection st.nodes st.edges s t).error "無法建立連接") := by
  have hs' : (s == "") = false := by simpa using hs
  have ht' : (t == "") = false := by simpa using ht
  rw [onConnect_rejected hs' ht' hrej]
  exact ⟨rfl, rfl, rfl, rfl⟩

theorem C6_reject_no_mutation_witness :
    (onConnect ⟨[exOutputA, exMergeB], [], none, none⟩ "a" "b" none none).edges = [] ∧
    (onConnect ⟨[exOutputA, exMergeB], [], none, none⟩ "a" "b" none none).nodes =
      [exOutputA, exMergeB] :=
  ⟨(C6_reject_no_mutation ⟨[exOutputA, exMergeB], [], none, none⟩ "a" "b" none none
      (by decide) (by decide) (by decide)).2.1,
   (C6_reject_no_mutation ⟨[exOutputA, exMergeB], [], none, none⟩ "a" "b" none none
      (by decide) (by decide) (by decide)).1⟩

/-- C7: deleting the selected node removes exactly that node and,
atomically, every edge whose source or target is its id (no surviving
edge is incident to it), clears the selection, and keeps every other
node and edge. -/
theorem C7_remove_node (st : WorkflowState) (sel : FlowNode)
    (hsel : st.selectedNode = some sel) :
    (deleteSelectedNode st).nodes = st.nodes.filter (fun n => !(n.id == sel.id)) ∧
    (deleteSelectedNode st).edges =
      st.edges.filter (fun e => !(e.source == sel.id) && !(e.target == sel.id)) ∧
    (deleteSelectedNode st).selectedNode = none ∧
    (∀ e ∈ (deleteSelectedNode st).edges, e.source ≠ sel.id ∧ e.target ≠ sel.id) ∧
    (∀ n ∈ (deleteSelectedNode st).nodes, n.id ≠ sel.id ∧ n ∈ st.nodes) ∧
    (∀ e ∈ st.edges, e.source ≠ sel.id → e.target ≠ sel.id →
      e ∈ (deleteSelectedNode st).edges) ∧
    (∀ n ∈ st.nodes, n.id ≠ sel.id → n ∈ (deleteSelectedNode st).nodes) := by
  have hdel : deleteSelectedNode st =
      { st with
        nodes := st.nodes.filter (fun n => !(n.id == sel.id)),
        edges := st.edges.filter (fun e => !(e.source == sel.id) && !(e.target == sel.id)),
        selectedNode := none } := by
    unfold deleteSelectedNode
    rw [hsel]
  rw [hdel]
  refine ⟨rfl, rfl, rfl, ?_, ?_, ?_, ?_⟩
  · intro e he
    simp only [List.mem_filter, Bool.and_eq_true, Bool.not_eq_true', beq_eq_false_iff_ne]
      at he
    exact he.2
  · intro n hn
    simp only [List.mem_filter, Bool.not_eq_true', beq_eq_false_iff_ne] at hn
    exact ⟨hn.2, hn.1⟩
  · intro e he h1 h2
    simp only [List.mem_filter, Bool.and_eq_true, Bool.not_eq_true', beq_eq_false_iff_ne]
    exact ⟨he, h1, h2⟩
  · intro n hn h1
    simp only [List.mem_filter, Bool.not_eq_true', beq_eq_false_iff_ne]
    exact ⟨hn, h1⟩

theorem C7_remove_node_witness :
    (deleteSelectedNode ⟨[exInputA, exSplitB], [⟨"e1", "a", "b", none, none⟩],
        some exInputA, none⟩).edges = [] ∧
    (deleteSelectedNode ⟨[exInputA, exSplitB], [⟨"e1", "a", "b", none, none⟩],
        some exInputA, none⟩).selectedNode = none := by
  have h := C7_remove_node ⟨[exInputA, exSplitB], [⟨"e1", "a", "b", none, none⟩],
    some exInputA, none⟩ exInputA (by decide)
  exact ⟨by rw [h.2.1]; decide, h.2.2.1⟩

/-- C8: when neither endpoint's node type has an entry in the rule
table, the validator never rejects on rule grounds — the attempt is
accepted unless a node is missing, it is a self-connection, or the edge
already exists. -/
theorem C8_no_rule_permissive (ns : List FlowNode) (es : List FlowEdge) (s t : String)
    (hs : (ns.find? (fun n => n.id == s)).all
      (fun sn => (connectionRules sn.data.nodeType).isNone) = true)
    (ht : (ns.find? (fun n => n.id == t)).all
      (fun tn => (connectionRules tn.data.nodeType).isNone) = true) :
    (validateConnection ns es s t).valid = true ∨
    (validateConnection ns es s t).error = some "找不到節點" ∨
    (validateConnection ns es s t).error = some "不能連接到自己" ∨
    (validateConnection ns es s t).error = some "已經存在相同的連接" := by
  cases hfs : ns.find? (fun n => n.id == s) with
  | none =>
    rw [validateConnection_missing (Or.inl hfs)]
    simp
  | some sn =>
    cases hft : ns.find? (fun n => n.id == t) with
    | none =>
      rw [validateConnection_missing (Or.inr hft)]
      simp
    | some tn =>
      rw [hfs] at hs
      rw [hft] at ht
      have hsn : connectionRules sn.data.nodeType = none := by
        simpa [Option.all_some, Option.isNone_iff_eq_none] using hs
      have htn : connectionRules tn.data.nodeType = none := by
        simpa [Option.all_some, Option.isNone_iff_eq_none] using ht
      rw [validateConnection_found hfs hft]
      unfold validateChain
      simp only [ruleAllowsOutput, ruleAllowsInput, capacityBlocked, hsn, htn,
        Option.any_none, Bool.not_false, Bool.not_true, Bool.false_eq_true, if_false]
      split
      · simp
      · split
        · simp
        · simp

theorem C8_no_rule_permissive_witness :
    (validateConnection
        [⟨"a", "workflowNode", ⟨0, 0⟩, ⟨"A", "", "", "custom_step", []⟩⟩,
         ⟨"b", "workflowNode", ⟨0, 0⟩, ⟨"B", "", "", "another_custom", []⟩⟩]
        [] "a" "b").valid = true ∨
    (validateConnection
        [⟨"a", "workflowNode", ⟨0, 0⟩, ⟨"A", "", "", "custom_step", []⟩⟩,
         ⟨"b", "workflowNode", ⟨0, 0⟩, ⟨"B", "", "", "another_custom", []⟩⟩]
        [] "a" "b").error = some "找不到節點" ∨
    (validateConnection
        [⟨"a", "workflowNode", ⟨0, 0⟩, ⟨"A", "", "", "custom_step", []⟩⟩,
         ⟨"b", "workflowNode", ⟨0, 0⟩, ⟨"B", "", "", "another_custom", []⟩⟩]
        [] "a" "b").error = some "不能連接到自己" ∨
    (validateConnection
        [⟨"a", "workflowNode", ⟨0, 0⟩, ⟨"A", "", "", "custom_step", []⟩⟩,
         ⟨"b", "workflowNode", ⟨0, 0⟩, ⟨"B", "", "", "another_custom", []⟩⟩]
        [] "a" "b").error = some "已經存在相同的連接" :=
  C8_no_rule_permissive
    [⟨"a", "workflowNode", ⟨0, 0⟩, ⟨"A", "", "", "custom_step", []⟩⟩,
     ⟨"b", "workflowNode", ⟨0, 0⟩, ⟨"B", "", "", "another_custom", []⟩⟩]
    [] "a" "b" (by decide) (by decide)

theorem autoArrangeNodes_of_ne_empty (ms : List FlowNode) (es : List FlowEdge)
    (h : ms.isEmpty = false) :
    autoArrangeNodes ms es =
      ms.map (applyPositions (arrangePositions (computeLevels ms es))) := by
  unfold autoArrangeNodes
  rw [h]
  simp

/-- C2 (counterexample): auto-arrange does not center each level
vertically around a common baseline.  On the graph A→B, A→C the levels
are [A] and [B, C]; A sits at y = 100 while B, C sit at y = 100 and
y = 220, so level 1's mean y is 160 while level 0's is 100 — the mean
y-coordinate of a level depends on how many nodes it contains. -/
theorem C2_counterexample :
    computeLevels exArrangeNodes exArrangeEdges = [["A"], ["B", "C"]] ∧
    (autoArrangeNodes exArrangeNodes exArrangeEdges).map (fun n => (n.id, n.position)) =
      [("A", ⟨100, 100⟩), ("B", ⟨350, 100⟩), ("C", ⟨350, 220⟩)] ∧
    ¬((100 : Int) + 220 = 100 + 100) := by
  refine ⟨by decide, by decide, by decide⟩

/-- C2 (amended): auto-arrange assigns the node at index i of level ℓ
the position x = START_X + ℓ·HORIZONTAL_GAP and
y = START_Y + i·VERTICAL_GAP — each level is stacked downward from the
common top baseline START_Y (top-aligned, not vertically centered; the
source's centering offset `(len-1)·VERTICAL_GAP/2` is added into the
level baseline and subtracted again, cancelling exactly). -/
theorem C2_amended (levels : List (List String)) :
    arrangePositions levels =
      (levels.enum.map (fun li =>
        li.2.enum.map (fun ni =>
          (ni.2, (⟨START_X + (li.1 : Int) * HORIZONTAL_GAP,
                  START_Y + (ni.1 : Int) * VERTICAL_GAP⟩ : Position))))).flatten := by
  unfold arrangePositions
  congr 1
  apply List.map_congr_left
  intro li _
  apply List.map_congr_left
  intro ni _
  have hy : START_Y + ((li.2.length : Int) - 1) * VERTICAL_GAP / 2 -
        ((li.2.length : Int) - 1) * VERTICAL_GAP / 2 + (ni.1 : Int) * VERTICAL_GAP =
      START_Y + (ni.1 : Int) * VERTICAL_GAP := by
    ring
  rw [hy]

/-- C9: re-running auto-arrange changes nothing — the level assignment
(hence every x-coordinate) computed on the arranged graph equals the one
computed on the original graph, and applying auto-arrange a second time
returns exactly the same node list, positions included.  (Leveling reads
only node ids, node types and edges, never positions.) -/
theorem C9_arrange_idempotent (ns : List FlowNode) (es : List FlowEdge) :
    computeLevels (autoArrangeNodes ns es) es = computeLevels ns es ∧
    autoArrangeNodes (autoArrangeNodes ns es) es = autoArrangeNodes ns es := by
  by_cases hne : ns.isEmpty
  · unfold autoArrangeNodes
    simp [hne]
  · have harr : autoArrangeNodes ns es =
        ns.map (applyPositions (arrangePositions (computeLevels ns es))) := by
      unfold autoArrangeNodes
      simp [hne]
    have hlv : computeLevels (autoArrangeNodes ns es) es = computeLevels ns es := by
      rw [harr]
      exact computeLevels_map _ ns es (applyPositions_id _)
        (fun n => by rw [applyPositions_data])
    refine ⟨hlv, ?_⟩
    have hne2 : (autoArrangeNodes ns es).isEmpty = false := by
      rw [harr, isEmpty_map]
      cases hns : ns.isEmpty
      · rfl
      · exact absurd hns (by simpa using hne)
    rw [autoArrangeNodes_of_ne_empty _ es hne2, hlv, harr, List.map_map]
    have hfun : applyPositions (arrangePositions (computeLevels ns es)) ∘
          applyPositions (arrangePositions (computeLevels ns es)) =
        applyPositions (arrangePositions (computeLevels ns es)) := by
      funext n
      exact applyPositions_idem _ n
    rw [hfun]

/-- C4 (counterexample): the save→load round trip does not preserve the
node type of a node whose `data.nodeType` is absent: saving falls back
to the React Flow renderer type `"workflowNode"`, which the load then
installs as the node's `nodeType`. -/
theorem C4_counterexample :
    ((loadWorkflow (serializeWorkflow "x"
        [⟨"n1", "workflowNode", ⟨1, 2⟩, ⟨"L", "", "", "", []⟩⟩] [])).1.map
      (fun n => n.data.nodeType)) = ["workflowNode"] ∧
    ([⟨"n1", "workflowNode", ⟨1, 2⟩, ⟨"L", "", "", "", []⟩⟩] :
        List FlowNode).map (fun n => n.data.nodeType) = [""] ∧
    ("workflowNode" : String) ≠ "" := by
  refine ⟨by decide, by decide, by decide⟩

/-- C4 (amended): for every graph in which each node's `nodeType` is
present (non-empty — true of every node the editor creates), saving and
re-loading reconstructs the same node ids, node types and positions, and
the same edge ids and source/target endpoints. -/
theorem C4_roundtrip (name : String) (ns : List FlowNode) (es : List FlowEdge)
    (h : ∀ n ∈ ns, n.data.nodeType ≠ "") :
    ((loadWorkflow (serializeWorkflow name ns es)).1.map (fun n => n.id) =
      ns.map (fun n => n.id)) ∧
    ((loadWorkflow (serializeWorkflow name ns es)).1.map (fun n => n.position) =
      ns.map (fun n => n.position)) ∧
    ((loadWorkflow (serializeWorkflow name ns es)).1.map (fun n => n.data.nodeType) =
      ns.map (fun n => n.data.nodeType)) ∧
    ((loadWorkflow (serializeWorkflow name ns es)).2.map (fun e => (e.source, e.target)) =
      es.map (fun e => (e.source, e.target))) ∧
    ((loadWorkflow (serializeWorkflow name ns es)).2.map (fun e => e.id) =
      es.map (fun e => e.id)) := by
  unfold loadWorkflow serializeWorkflow
  simp only [List.map_map]
  refine ⟨?_, ?_, ?_, ?_, ?_⟩
  · apply List.map_congr_left
    intro n _
    rfl
  · apply List.map_congr_left
    intro n _
    rfl
  · apply List.map_congr_left
    intro n hn
    show (deserializeNode (serializeNode n)).data.nodeType = n.data.nodeType
    show jsOr n.data.nodeType n.type = n.data.nodeType
    unfold jsOr
    rw [if_neg (by simpa using h n hn)]
  · apply List.map_congr_left
    intro e _
    rfl
  · apply List.map_congr_left
    intro e _
    rfl

theorem C4_roundtrip_witness :
    (loadWorkflow (serializeWorkflow "x" exArrangeNodes exArrangeEdges)).1.map
      (fun n => n.data.nodeType) =
    exArrangeNodes.map (fun n => n.data.nodeType) :=
  (C4_roundtrip "x" exArrangeNodes exArrangeEdges (by decide)).2.2.1

/-- C10: loading discards every stored handle name — loaded edges carry
no handle fields — so saving a just-loaded workflow serializes every
connection with the default handles "output" and "input", whatever
handle names the fetched data contained. -/
theorem C10_handles_reset (name : String) (w : SavedWorkflow) :
    ((serializeWorkflow name (loadWorkflow w).1 (loadWorkflow w).2).connections).map
        (fun c => (c.source_handle, c.target_handle)) =
      w.connections.map (fun _ => ("output", "input")) ∧
    (∀ c ∈ w.connections, (deserializeConnection c).sourceHandle = none ∧
      (deserializeConnection c).targetHandle = none) := by
  constructor
  · unfold loadWorkflow serializeWorkflow
    simp only [List.map_map]
    apply List.map_congr_left
    intro c _
    rfl
  · intro c _
    exact ⟨rfl, rfl⟩

end Workflow
